import Mathlib

/-!
Shallow embedding of the SafeRoute cleaning-and-clustering pipeline
(src/cleaner.py and src/model.py) and verification of its specification.

Modelling conventions:
* A tabular cell is `Cell`: `null` covers a missing value / NaN / NaT,
  `num x` covers any cell that pandas `to_numeric` coerces to the number `x`
  (whether it was stored as a float or as a numeric string), and `text s`
  covers a cell that `to_numeric(errors=coerce)` sends to NaN.
* Machine floats are modelled as exact rationals; the pipeline performs no
  arithmetic on coordinates, only comparisons, so this is faithful.
* External library capabilities (pandas date parsing, scikit-learn KMeans)
  are function parameters of the embedded pipeline functions; the KMeans
  capability takes (points, n_clusters, random_state) and returns
  (labels, cluster centers), mirroring fit_predict / cluster_centers_.
* File I/O is modelled with `Option`: a `none` input is a missing source
  artifact (FileNotFoundError branch of load_data / load_cleaned_data); a
  `some` result of a run function is the artifact written by `to_csv`, and
  `none` is an early return in which nothing is written.
-/

namespace SafeRoute

/-- A cell of the tabular record store, classified by how pandas numeric
coercion treats it. -/
inductive Cell where
  | null
  | num (x : ℚ)
  | text (s : String)
deriving DecidableEq, Repr, Inhabited

/-- Whether the cell is a missing value (NaN / None / NaT). -/
def Cell.isNull : Cell → Bool
  | Cell.null => true
  | _ => false

/-- Result of pandas `to_numeric(errors=coerce)` on one cell: a numeric cell
keeps its value, everything else becomes NaN (`none`). -/
def Cell.toNumeric : Cell → Option ℚ
  | Cell.num x => some x
  | _ => none

/-- One accident record: the four named columns the pipeline touches, an
opaque blob standing for all passthrough columns, and the `Cluster_ID`
column, absent (`none`) until the clustering stage adds it. -/
structure Record where
  lat : Cell
  lon : Cell
  date : Cell
  severity : Cell
  extra : String
  clusterId : Option Nat := none
deriving DecidableEq, Repr, Inhabited

/-- In-memory data frame: the rows plus column-presence flags for the two
optional columns that `normalize_datetime` tests with `in df.columns`. -/
structure Frame where
  hasDate : Bool
  hasSeverity : Bool
  rows : List Record
deriving DecidableEq, Repr, Inhabited

/-- `df.dropna(subset=[Latitude, Longitude])`. -/
def dropna_coords (df : List Record) : List Record :=
  df.filter fun r => !r.lat.isNull && !r.lon.isNull

/-- Write-back of `to_numeric(errors=coerce)` into a coordinate column. -/
def coerce_numeric_cell (c : Cell) : Cell :=
  match c.toNumeric with
  | some x => Cell.num x
  | none => Cell.null

/-- Overwrite both coordinate columns with their numeric coercion. -/
def coerce_coords (df : List Record) : List Record :=
  df.map fun r =>
    { r with lat := coerce_numeric_cell r.lat, lon := coerce_numeric_cell r.lon }

/-- `clean_coordinates` of src/cleaner.py: drop rows with missing
coordinates, coerce both coordinate columns to numeric, drop the rows whose
coercion produced NaN. -/
def clean_coordinates (df : List Record) : List Record :=
  dropna_coords (coerce_coords (dropna_coords df))

/-- A pandas comparison chain `(c >= lo) & (c <= hi)` on one cell: NaN and
non-numeric cells compare false. -/
def cell_in_range (c : Cell) (lo hi : ℚ) : Bool :=
  match c with
  | Cell.num x => decide (lo ≤ x) && decide (x ≤ hi)
  | _ => false

/-- `filter_city_limits` of src/cleaner.py: keep the rows whose coordinates
lie in the closed bounding box. -/
def filter_city_limits (df : List Record) (lat_bounds lon_bounds : ℚ × ℚ) :
    List Record :=
  df.filter fun r =>
    cell_in_range r.lat lat_bounds.1 lat_bounds.2 &&
    cell_in_range r.lon lon_bounds.1 lon_bounds.2

/-- `pd.to_datetime(errors=coerce)` on one cell, the parsing capability
supplied externally; a canonical datetime is modelled as a numeric
timestamp, NaT as `null`. -/
def to_datetime (parse : Cell → Option ℚ) (c : Cell) : Cell :=
  match parse c with
  | some t => Cell.num t
  | none => Cell.null

/-- `fillna(Unknown)` on one severity cell. -/
def fill_severity (c : Cell) : Cell :=
  if c.isNull then Cell.text "Unknown" else c

/-- `normalize_datetime` of src/cleaner.py: normalize the `Date` column if
present, fill missing `Severity` if present. -/
def normalize_datetime (parse : Cell → Option ℚ) (f : Frame) : Frame :=
  { f with
    rows := f.rows.map fun r =>
      { r with
        date := if f.hasDate then to_datetime parse r.date else r.date,
        severity := if f.hasSeverity then fill_severity r.severity else r.severity } }

/-- The latitude bounds (28.40, 28.88) hardcoded inside
`run_cleaning_pipeline`, written with `mkRat` so that they evaluate by
kernel reduction. -/
def delhi_lat_bounds : ℚ × ℚ := (mkRat 2840 100, mkRat 2888 100)

/-- The longitude bounds (76.83, 77.34) hardcoded inside
`run_cleaning_pipeline`. -/
def delhi_lon_bounds : ℚ × ℚ := (mkRat 7683 100, mkRat 7734 100)

/-- `clean_coordinates` lifted to a frame. -/
def clean_frame (f : Frame) : Frame :=
  { f with rows := clean_coordinates f.rows }

/-- `filter_city_limits` lifted to a frame. -/
def filter_frame (f : Frame) (latB lonB : ℚ × ℚ) : Frame :=
  { f with rows := filter_city_limits f.rows latB lonB }

/-- `run_cleaning_pipeline` of src/cleaner.py: on a missing source artifact
(`none`) it returns with nothing written; otherwise it cleans, normalizes,
filters with the hardcoded Delhi bounding box, and writes the result
unconditionally (the `some` value is the written cleaned snapshot). -/
def run_cleaning_pipeline (parse : Cell → Option ℚ) (input : Option Frame) :
    Option Frame :=
  match input with
  | none => none
  | some df =>
      some (filter_frame (normalize_datetime parse (clean_frame df))
        delhi_lat_bounds delhi_lon_bounds)

/-- Spec-style variant of `run_cleaning_pipeline` in which the bounding box
is part of the externally overridable configuration surface, as section 6 of
the specification requires. -/
def run_cleaning_pipeline_with_bounds (parse : Cell → Option ℚ)
    (latB lonB : ℚ × ℚ) (input : Option Frame) : Option Frame :=
  match input with
  | none => none
  | some df =>
      some (filter_frame (normalize_datetime parse (clean_frame df)) latB lonB)

/-- `calculate_risk_score` of src/model.py: a discrete risk label from the
number of accidents in a cluster. -/
def calculate_risk_score (cluster_data : List Record) : String :=
  let crash_count := cluster_data.length
  if 50 < crash_count then "High"
  else if 20 < crash_count then "Moderate"
  else "Low"

/-- The external centroid-based partitioning capability (scikit-learn
KMeans): from (points, n_clusters, random_state) it produces the label list
of `fit_predict` and the center list `cluster_centers_`. -/
def KMeansCap : Type :=
  List (ℚ × ℚ) → Nat → Nat → (List Nat × List (ℚ × ℚ))

/-- The two-column matrix row `df[[Latitude, Longitude]].to_numpy()` builds
from one record; the clustering stage requires numeric coordinates (the
cleaning invariant) and does not re-validate them. -/
def coordinate_of (r : Record) : ℚ × ℚ :=
  (r.lat.toNumeric.getD 0, r.lon.toNumeric.getD 0)

/-- `df[Cluster_ID] = labels`: attach the i-th label to the i-th row. -/
def assign_labels (df : List Record) (labels : List Nat) : List Record :=
  List.zipWith (fun r l => { r with clusterId := some l }) df labels

/-- One row of the centroid output artifact. -/
structure BlackSpot where
  Cluster_ID : Nat
  Latitude : ℚ
  Longitude : ℚ
  Total_Crashes : Nat
  Risk_Level : String
deriving DecidableEq, Repr, Inhabited

/-- `identify_black_spots` of src/model.py: extract coordinates, run the
partitioning capability with the hardcoded seed 42, attach the labels as the
`Cluster_ID` column, and build one centroid row per cluster id in `[0, k)`.
No emptiness check is performed before invoking the capability. -/
def identify_black_spots (kmeans : KMeansCap) (df : List Record) (k : Nat) :
    List BlackSpot × List Record :=
  let coordinates := df.map coordinate_of
  let fitted := kmeans coordinates k 42
  let labeled := assign_labels df fitted.1
  let black_spots := (List.range k).map fun i =>
    let cluster_points := labeled.filter fun r => r.clusterId == some i
    { Cluster_ID := i,
      Latitude := (fitted.2.getD i (0, 0)).1,
      Longitude := (fitted.2.getD i (0, 0)).2,
      Total_Crashes := cluster_points.length,
      Risk_Level := calculate_risk_score cluster_points }
  (black_spots, labeled)

/-- Spec-style variant of `identify_black_spots` in which the random seed is
part of the externally overridable configuration surface, as section 6 of
the specification requires. -/
def identify_black_spots_with_seed (kmeans : KMeansCap) (df : List Record)
    (k seed : Nat) : List BlackSpot × List Record :=
  let coordinates := df.map coordinate_of
  let fitted := kmeans coordinates k seed
  let labeled := assign_labels df fitted.1
  let black_spots := (List.range k).map fun i =>
    let cluster_points := labeled.filter fun r => r.clusterId == some i
    { Cluster_ID := i,
      Latitude := (fitted.2.getD i (0, 0)).1,
      Longitude := (fitted.2.getD i (0, 0)).2,
      Total_Crashes := cluster_points.length,
      Risk_Level := calculate_risk_score cluster_points }
  (black_spots, labeled)

/-- `run_ml_pipeline` of src/model.py: on a missing cleaned artifact
(`none`) or an empty record set it returns with nothing written; otherwise
it runs `identify_black_spots` and writes the centroid rows (the `some`
value is the written centroid snapshot). -/
def run_ml_pipeline (kmeans : KMeansCap) (input : Option (List Record))
    (k : Nat) : Option (List BlackSpot) :=
  match input with
  | none => none
  | some df =>
      if df.isEmpty then none
      else some (identify_black_spots kmeans df k).1

/-! Concrete inputs used by witnesses and counterexamples. -/

/-- A record sitting exactly on the lower Delhi boundary values. -/
def boundary_record : Record :=
  { lat := Cell.num (mkRat 2840 100), lon := Cell.num (mkRat 7683 100),
    date := Cell.null, severity := Cell.null, extra := "b" }

/-- A date-parsing capability that can parse nothing. -/
def trivial_parse : Cell → Option ℚ := fun _ => none

/-- A raw frame whose only row lacks a latitude, so cleaning empties it. -/
def null_coordinate_frame : Frame :=
  { hasDate := false, hasSeverity := false,
    rows := [{ lat := Cell.null, lon := Cell.num 77, date := Cell.null,
               severity := Cell.null, extra := "n" }] }

/-- A record far outside the Delhi bounding box but inside a wide box. -/
def out_of_delhi_record : Record :=
  { lat := Cell.num 10, lon := Cell.num 20, date := Cell.null,
    severity := Cell.null, extra := "p" }

/-- A frame holding only `out_of_delhi_record`. -/
def out_of_delhi_frame : Frame :=
  { hasDate := false, hasSeverity := false, rows := [out_of_delhi_record] }

/-- An alternative configured bounding box that contains
`out_of_delhi_record`. -/
def wide_lat_bounds : ℚ × ℚ := (0, 90)

/-- Longitude part of the alternative configured bounding box. -/
def wide_lon_bounds : ℚ × ℚ := (0, 180)

/-- A partitioning capability whose centroid output depends on the seed it
is given. -/
def seed_sensitive_cap : KMeansCap := fun _ _ seed => ([0], [((seed : ℚ), 0)])

/-- A capability that labels every point 0 and returns one fixed center. -/
def det_cap_a : KMeansCap := fun points _ _ => (points.map fun _ => 0, [(3, 4)])

/-- A capability agreeing with `det_cap_a` exactly at seed 42. -/
def det_cap_b : KMeansCap := fun points _ seed =>
  if seed == 42 then (points.map fun _ => 0, [(3, 4)]) else ([], [])

/-- A capability used to probe behavior on the empty point list. -/
def probe_cap_a : KMeansCap := fun _ _ _ => ([], [(1, 1)])

/-- A capability differing from `probe_cap_a` exactly on the empty point
list. -/
def probe_cap_b : KMeansCap := fun points _ _ =>
  if points.isEmpty then ([], [(2, 2)]) else ([], [(1, 1)])

/-- A frame with both optional columns present, an unparseable date and a
missing severity. -/
def norm_frame : Frame :=
  { hasDate := true, hasSeverity := true,
    rows := [{ lat := Cell.num 1, lon := Cell.num 2,
               date := Cell.text "not-a-date", severity := Cell.null,
               extra := "w" }] }

/-! Helper lemmas. -/

/-- A cell passes the closed-interval bounding-box test exactly when it is
numeric with value inside the closed interval. -/
lemma cell_in_range_iff (c : Cell) (lo hi : ℚ) :
    cell_in_range c lo hi = true ↔ ∃ x, c = Cell.num x ∧ lo ≤ x ∧ x ≤ hi := by
  cases c <;> simp [cell_in_range]

/-- Filling a missing severity never leaves a null cell. -/
lemma fill_severity_not_null (c : Cell) : (fill_severity c).isNull = false := by
  cases c <;> simp [fill_severity, Cell.isNull]

/-- `getD` through `map` at an in-bounds index. -/
lemma getD_map_of_lt {α β : Type} [Inhabited β] (g : α → β) (l : List α)
    (i : Nat) (h : i < l.length) :
    (l.map g).getD i default = g (l.get ⟨i, h⟩) := by
  induction l generalizing i with
  | nil => simp at h
  | cons a t ih =>
    cases i with
    | zero => rfl
    | succ n => exact ih n (Nat.lt_of_succ_lt_succ (by simpa using h))

/-- A list sum over `List.range` is a `Finset.range` sum. -/
lemma list_sum_range (k : Nat) (f : Nat → Nat) :
    ((List.range k).map f).sum = ∑ i in Finset.range k, f i := rfl

/-- Counting rows of a labeled set carrying label `i` counts the labels
themselves, when one label was attached to each row. -/
lemma countP_assign_labels (df : List Record) (labels : List Nat)
    (h : labels.length = df.length) (i : Nat) :
    ((assign_labels df labels).countP fun r => r.clusterId == some i) =
      labels.countP fun l => l == i := by
  induction df generalizing labels with
  | nil => cases labels <;> simp_all [assign_labels]
  | cons r t ih =>
    cases labels with
    | nil => simp at h
    | cons a ls =>
      have h' : ls.length = t.length := by simpa using h
      simp only [assign_labels, List.zipWith_cons_cons, List.countP_cons] at ih ⊢
      rw [ih ls h']
      simp

/-- Summing the per-label counts over `[0, k)` counts the whole label list
when every label is below `k`. -/
lemma sum_range_countP (labels : List Nat) (k : Nat)
    (h : ∀ l ∈ labels, l < k) :
    ((List.range k).map fun i => labels.countP fun l => l == i).sum =
      labels.length := by
  rw [list_sum_range]
  induction labels with
  | nil => simp
  | cons a t ih =>
    have ha : a ∈ Finset.range k := Finset.mem_range.mpr (h a (by simp))
    simp only [List.countP_cons, List.length_cons]
    rw [Finset.sum_add_distrib, ih fun l hl => h l (by simp [hl])]
    congr 1
    simp only [beq_iff_eq]
    rw [Finset.sum_ite_eq, if_pos ha]

/-- `getD` through a map over `List.range` at an in-bounds index. -/
lemma getD_map_range {β : Type} [Inhabited β] (f : Nat → β) (k i : Nat)
    (h : i < k) :
    ((List.range k).map f).getD i default = f i := by
  rw [getD_map_of_lt f (List.range k) i (by simpa using h), List.get_eq_getElem,
    List.getElem_range]

/-- Length of a labeled record set, when one label was attached per row. -/
lemma assign_labels_length (df : List Record) (labels : List Nat)
    (h : labels.length = df.length) :
    (assign_labels df labels).length = df.length := by
  simp [assign_labels, h]

/-- The `i`-th labeled record is the `i`-th input record with only its
`Cluster_ID` column set. -/
lemma assign_labels_getD (df : List Record) (labels : List Nat)
    (h : labels.length = df.length) (i : Nat) (hi : i < df.length) :
    (assign_labels df labels).getD i default =
      { df.get ⟨i, hi⟩ with clusterId := some (labels.getD i 0) } := by
  induction df generalizing labels i with
  | nil => simp at hi
  | cons r t ih =>
    cases labels with
    | nil => simp at h
    | cons a ls =>
      cases i with
      | zero => rfl
      | succ n =>
        exact ih ls (by simpa using h) n (by simpa using hi)

/-- An in-bounds `getD` is a member of the list. -/
lemma getD_mem_of_lt {α : Type} (l : List α) (i : Nat) (d : α)
    (h : i < l.length) : l.getD i d ∈ l := by
  induction l generalizing i with
  | nil => simp at h
  | cons a t ih =>
    cases i with
    | zero => exact List.mem_cons_self a t
    | succ n => exact List.mem_cons_of_mem a (ih n (by simpa using h))

/-! Theorems settling the claims. -/

/-- C2: the risk level of a cluster is computed from its record count by the
fixed thresholds: strictly more than 50 records yield "High", 21 to 50
inclusive yield "Moderate", 20 or fewer yield "Low"; in particular 50
records yield "Moderate", 51 yield "High", 20 yield "Low" and 21 yield
"Moderate". -/
theorem C2_risk_thresholds (cluster : List Record) :
    (50 < cluster.length → calculate_risk_score cluster = "High") ∧
    (21 ≤ cluster.length → cluster.length ≤ 50 →
      calculate_risk_score cluster = "Moderate") ∧
    (cluster.length ≤ 20 → calculate_risk_score cluster = "Low") ∧
    (cluster.length = 50 → calculate_risk_score cluster = "Moderate") ∧
    (cluster.length = 51 → calculate_risk_score cluster = "High") ∧
    (cluster.length = 20 → calculate_risk_score cluster = "Low") ∧
    (cluster.length = 21 → calculate_risk_score cluster = "Moderate") := by
  simp only [calculate_risk_score]
  refine ⟨fun h => ?_, fun h h2 => ?_, fun h => ?_, fun h => ?_, fun h => ?_,
    fun h => ?_, fun h => ?_⟩ <;>
  · split_ifs <;> first | rfl | omega

/-- Witness for C2 at the four boundary record counts. -/
theorem C2_risk_thresholds_witness :
    calculate_risk_score (List.replicate 50 (default : Record)) = "Moderate" ∧
    calculate_risk_score (List.replicate 51 (default : Record)) = "High" ∧
    calculate_risk_score (List.replicate 20 (default : Record)) = "Low" ∧
    calculate_risk_score (List.replicate 21 (default : Record)) = "Moderate" :=
  ⟨(C2_risk_thresholds _).2.2.2.1 (by simp),
   (C2_risk_thresholds _).2.2.2.2.1 (by simp),
   (C2_risk_thresholds _).2.2.2.2.2.1 (by simp),
   (C2_risk_thresholds _).2.2.2.2.2.2 (by simp)⟩

/-- C7: the clustering stage is deterministic: its output depends on the
external partitioning capability only through that capability's value at
the one point it is invoked on, namely (coordinates of the input, k, the
fixed seed 42); two runs whose capabilities agree there (as any two runs of
a seed-deterministic capability do) produce identical centroid rows and
identical labeled records. -/
theorem C7_clustering_deterministic (cap1 cap2 : KMeansCap)
    (df : List Record) (k : Nat)
    (h : cap1 (df.map coordinate_of) k 42 = cap2 (df.map coordinate_of) k 42) :
    identify_black_spots cap1 df k = identify_black_spots cap2 df k := by
  simp only [identify_black_spots, h]

/-- Witness for C7: two capabilities that agree at seed 42 but not
elsewhere give identical stage output on a concrete record. -/
theorem C7_clustering_deterministic_witness :
    det_cap_a ([boundary_record].map coordinate_of) 1 42 =
      det_cap_b ([boundary_record].map coordinate_of) 1 42 ∧
    identify_black_spots det_cap_a [boundary_record] 1 =
      identify_black_spots det_cap_b [boundary_record] 1 :=
  ⟨by decide, C7_clustering_deterministic det_cap_a det_cap_b [boundary_record] 1 (by decide)⟩

/-- C4 counterexample: a raw frame whose only row has a null latitude is
empty after cleaning, yet `run_cleaning_pipeline` still writes a cleaned
snapshot for that run: its result is `some` (a written artifact) with zero
rows, contradicting the claim that no cleaned snapshot is written when the
record set is empty after cleaning. -/
theorem C4_counterexample :
    run_cleaning_pipeline trivial_parse (some null_coordinate_frame) ≠ none ∧
    (run_cleaning_pipeline trivial_parse (some null_coordinate_frame)).map
      Frame.rows = some [] := by
  decide

/-- C4 amended: when the source artifact is missing each entry point halts
and writes nothing, and an empty-after-cleaning record set makes
`run_ml_pipeline` halt without writing a centroid snapshot; but
`run_cleaning_pipeline` writes the cleaned snapshot whenever the raw load
succeeds, even when zero rows remain. -/
theorem C4_halt_behavior (parse : Cell → Option ℚ) (kmeans : KMeansCap)
    (k : Nat) (f : Frame) :
    run_cleaning_pipeline parse none = none ∧
    run_ml_pipeline kmeans none k = none ∧
    run_ml_pipeline kmeans (some []) k = none ∧
    (run_cleaning_pipeline parse (some f)).isSome = true :=
  ⟨rfl, rfl, rfl, rfl⟩

/-- C5 counterexample: `identify_black_spots` itself performs no emptiness
check: on an empty record set it still emits a nonempty centroid list, and
its output depends on the partitioning capability's value at the empty
point list, so the capability is consulted on empty input (two capabilities
differing only there give different stage output). -/
theorem C5_counterexample :
    (identify_black_spots probe_cap_a [] 1).1.length ≠ 0 ∧
    identify_black_spots probe_cap_a [] 1 ≠ identify_black_spots probe_cap_b [] 1 ∧
    probe_cap_a [] 1 42 ≠ probe_cap_b [] 1 42 := by
  decide

/-- C5 amended: the emptiness guard lives in the stage entry point
`run_ml_pipeline`: a missing or empty cleaned record set makes it halt with
no centroid output, independently of the partitioning capability, so the
capability is never invoked on empty input through the pipeline;
`identify_black_spots` itself performs no emptiness check. -/
theorem C5_empty_guard (kmeans kmeans2 : KMeansCap) (k : Nat) :
    run_ml_pipeline kmeans (some []) k = none ∧
    run_ml_pipeline kmeans none k = none ∧
    run_ml_pipeline kmeans (some []) k = run_ml_pipeline kmeans2 (some []) k :=
  ⟨rfl, rfl, rfl⟩

/-- C6 counterexample: the bounding box and the seed are not externally
overridable: `run_cleaning_pipeline` cannot realize the wide-box
configuration (a record inside the wide box is dropped regardless), and
`identify_black_spots` cannot realize any seed other than 42 (with a
seed-sensitive capability its output differs from the seed-7 behavior of
the spec-style seed-configurable variant). -/
theorem C6_counterexample :
    run_cleaning_pipeline trivial_parse (some out_of_delhi_frame) ≠
      run_cleaning_pipeline_with_bounds trivial_parse wide_lat_bounds
        wide_lon_bounds (some out_of_delhi_frame) ∧
    identify_black_spots seed_sensitive_cap [out_of_delhi_record] 1 ≠
      identify_black_spots_with_seed seed_sensitive_cap [out_of_delhi_record] 1 7 := by
  decide

/-- C6 amended: only `k` is an externally overridable parameter of the
pipeline entry points (and it is effective: the stage emits exactly `k`
centroid rows); the bounding box is hardcoded to the Delhi constants inside
`run_cleaning_pipeline`, and the clustering seed is hardcoded to 42 inside
`identify_black_spots`. -/
theorem C6_configuration_surface (parse : Cell → Option ℚ)
    (kmeans : KMeansCap) (input : Option Frame) (df : List Record) (k : Nat) :
    run_cleaning_pipeline parse input =
      run_cleaning_pipeline_with_bounds parse delhi_lat_bounds
        delhi_lon_bounds input ∧
    identify_black_spots kmeans df k =
      identify_black_spots_with_seed kmeans df k 42 ∧
    (identify_black_spots kmeans df k).1.length = k := by
  refine ⟨?_, rfl, ?_⟩
  · cases input <;> rfl
  · simp [identify_black_spots]

/-- C1: every row surviving `clean_coordinates` followed by
`filter_city_limits` has numeric (non-null, non-text) latitude and
longitude lying inside the configured bounding box under closed-interval
inclusion, and every cleaned row whose coordinates pass the closed-interval
test — boundary values included — is kept by the filter. -/
theorem C1_cleaning_invariant (df : List Record) (latB lonB : ℚ × ℚ) :
    (∀ r ∈ filter_city_limits (clean_coordinates df) latB lonB,
      (∃ x : ℚ, r.lat = Cell.num x ∧ latB.1 ≤ x ∧ x ≤ latB.2) ∧
      (∃ y : ℚ, r.lon = Cell.num y ∧ lonB.1 ≤ y ∧ y ≤ lonB.2)) ∧
    (∀ r ∈ clean_coordinates df,
      cell_in_range r.lat latB.1 latB.2 = true →
      cell_in_range r.lon lonB.1 lonB.2 = true →
      r ∈ filter_city_limits (clean_coordinates df) latB lonB) := by
  constructor
  · intro r hr
    rw [filter_city_limits, List.mem_filter, Bool.and_eq_true] at hr
    exact ⟨(cell_in_range_iff _ _ _).mp hr.2.1, (cell_in_range_iff _ _ _).mp hr.2.2⟩
  · intro r hr h1 h2
    rw [filter_city_limits, List.mem_filter]
    exact ⟨hr, by simp [h1, h2]⟩

/-- Witness for C1: a record exactly on the lower boundary of the Delhi box
survives the cleaning composition, with numeric in-box coordinates. -/
theorem C1_cleaning_invariant_witness :
    ((∃ x : ℚ, boundary_record.lat = Cell.num x ∧
        delhi_lat_bounds.1 ≤ x ∧ x ≤ delhi_lat_bounds.2) ∧
     (∃ y : ℚ, boundary_record.lon = Cell.num y ∧
        delhi_lon_bounds.1 ≤ y ∧ y ≤ delhi_lon_bounds.2)) ∧
    boundary_record ∈ filter_city_limits (clean_coordinates [boundary_record])
      delhi_lat_bounds delhi_lon_bounds :=
  ⟨(C1_cleaning_invariant [boundary_record] delhi_lat_bounds delhi_lon_bounds).1
      boundary_record (by decide),
   (C1_cleaning_invariant [boundary_record] delhi_lat_bounds delhi_lon_bounds).2
      boundary_record (by decide) (by decide) (by decide)⟩

/-- C9: normalization never changes the number of records; when the
severity column is present every output severity cell is non-null; and when
the date column is present a row whose date the parser cannot parse gets a
null date while staying in place in the record set. -/
theorem C9_normalization (parse : Cell → Option ℚ) (f : Frame) :
    (normalize_datetime parse f).rows.length = f.rows.length ∧
    (f.hasSeverity = true →
      ∀ r ∈ (normalize_datetime parse f).rows, r.severity.isNull = false) ∧
    (f.hasDate = true → ∀ i, ∀ h : i < f.rows.length,
      parse (f.rows.get ⟨i, h⟩).date = none →
      ((normalize_datetime parse f).rows.getD i default).date = Cell.null ∧
      ((normalize_datetime parse f).rows.getD i default).lat =
        (f.rows.get ⟨i, h⟩).lat ∧
      ((normalize_datetime parse f).rows.getD i default).lon =
        (f.rows.get ⟨i, h⟩).lon ∧
      ((normalize_datetime parse f).rows.getD i default).extra =
        (f.rows.get ⟨i, h⟩).extra) := by
  refine ⟨by simp [normalize_datetime], fun hs r hr => ?_, fun hd i h hp => ?_⟩
  · rw [normalize_datetime] at hr
    simp only [List.mem_map] at hr
    obtain ⟨r0, _, rfl⟩ := hr
    simp only [hs, if_true]
    exact fill_severity_not_null r0.severity
  · rw [normalize_datetime]
    simp only
    rw [getD_map_of_lt _ f.rows i h]
    rw [List.get_eq_getElem] at hp
    simp [hd, to_datetime, hp]

/-- Witness for C9: a frame with both optional columns, a null severity and
an unparseable date; the row survives with a null date and the severity is
filled. -/
theorem C9_normalization_witness :
    (normalize_datetime trivial_parse norm_frame).rows.length =
      norm_frame.rows.length ∧
    (∀ r ∈ (normalize_datetime trivial_parse norm_frame).rows,
      r.severity.isNull = false) ∧
    ((normalize_datetime trivial_parse norm_frame).rows.getD 0 default).date =
      Cell.null :=
  ⟨(C9_normalization trivial_parse norm_frame).1,
   (C9_normalization trivial_parse norm_frame).2.1 rfl,
   ((C9_normalization trivial_parse norm_frame).2.2 rfl 0 (by decide) rfl).1⟩

/-- C3: when the partitioning capability assigns one label in `[0, k)` to
each record (the scikit-learn fit contract, so whenever the stage
succeeds), the Total_Crashes of the `k` centroid rows sum to the number of
cleaned input records. -/
theorem C3_total_crashes_conservation (kmeans : KMeansCap)
    (df : List Record) (k : Nat) (_hne : df ≠ []) (_hk : 1 ≤ k)
    (hlen : (kmeans (df.map coordinate_of) k 42).1.length = df.length)
    (hlab : ∀ l ∈ (kmeans (df.map coordinate_of) k 42).1, l < k) :
    ((identify_black_spots kmeans df k).1.map fun b => b.Total_Crashes).sum =
      df.length := by
  simp only [identify_black_spots, List.map_map, Function.comp_def]
  have h1 : ∀ i : Nat,
      ((assign_labels df (kmeans (df.map coordinate_of) k 42).1).filter
        fun r => r.clusterId == some i).length =
      ((kmeans (df.map coordinate_of) k 42).1.countP fun l => l == i) := by
    intro i
    rw [← List.countP_eq_length_filter]
    exact countP_assign_labels df _ hlen i
  simp only [h1]
  rw [sum_range_countP _ k hlab, hlen]

/-- Witness for C3 on a concrete one-record set with one cluster. -/
theorem C3_total_crashes_conservation_witness :
    ((identify_black_spots det_cap_a [boundary_record] 1).1.map
      fun b => b.Total_Crashes).sum = [boundary_record].length :=
  C3_total_crashes_conservation det_cap_a [boundary_record] 1 (by decide)
    (by decide) (by decide) (by decide)

/-- C8: for every partitioning capability, nonempty record set and k ≥ 1
the stage is total (the embedding is a total function, so no crash) and
returns one centroid row per cluster id in `[0, k)`, the `i`-th row carrying
`Cluster_ID = i`; a cluster to which no record was assigned gets
`Total_Crashes = 0` and `Risk_Level = "Low"`. -/
theorem C8_degenerate_clusters (kmeans : KMeansCap) (df : List Record)
    (k : Nat) (_hne : df ≠ []) (_hk : 1 ≤ k) (i : Nat) (hi : i < k) :
    (identify_black_spots kmeans df k).1.length = k ∧
    ((identify_black_spots kmeans df k).1.getD i default).Cluster_ID = i ∧
    (((identify_black_spots kmeans df k).2.filter
        fun r => r.clusterId == some i).length = 0 →
      ((identify_black_spots kmeans df k).1.getD i default).Total_Crashes = 0 ∧
      ((identify_black_spots kmeans df k).1.getD i default).Risk_Level = "Low") := by
  refine ⟨by simp [identify_black_spots], ?_, ?_⟩
  · simp only [identify_black_spots]
    rw [getD_map_range _ k i hi]
  · simp only [identify_black_spots]
    intro hzero
    rw [getD_map_range _ k i hi]
    simp only
    rw [hzero]
    exact ⟨rfl, by simp [calculate_risk_score, hzero]⟩

/-- Witness for C8: one record, two requested clusters; cluster 1 is empty
and gets a zero count and a Low risk label. -/
theorem C8_degenerate_clusters_witness :
    (identify_black_spots det_cap_a [boundary_record] 2).1.length = 2 ∧
    ((identify_black_spots det_cap_a [boundary_record] 2).1.getD 1
      default).Cluster_ID = 1 ∧
    ((identify_black_spots det_cap_a [boundary_record] 2).1.getD 1
      default).Total_Crashes = 0 ∧
    ((identify_black_spots det_cap_a [boundary_record] 2).1.getD 1
      default).Risk_Level = "Low" :=
  have h := C8_degenerate_clusters det_cap_a [boundary_record] 2 (by decide)
    (by decide) 1 (by decide)
  ⟨h.1, h.2.1, (h.2.2 (by decide)).1, (h.2.2 (by decide)).2⟩

/-- C10: the clustering stage only sets the `Cluster_ID` column: the
labeled output has one row per input row, each identical to its input row
on every pre-existing column, with a cluster id in `[0, k)` (given the
capability's label contract); and the cleaning composition leaves the
date, severity, passthrough and cluster columns of each surviving row equal
to those of the input row it came from. -/
theorem C10_frame_conditions (kmeans : KMeansCap) (df : List Record)
    (k : Nat) (latB lonB : ℚ × ℚ)
    (hlen : (kmeans (df.map coordinate_of) k 42).1.length = df.length)
    (hlab : ∀ l ∈ (kmeans (df.map coordinate_of) k 42).1, l < k) :
    ((identify_black_spots kmeans df k).2.length = df.length) ∧
    (∀ i, ∀ hi : i < df.length,
      ((identify_black_spots kmeans df k).2.getD i default).lat =
        (df.get ⟨i, hi⟩).lat ∧
      ((identify_black_spots kmeans df k).2.getD i default).lon =
        (df.get ⟨i, hi⟩).lon ∧
      ((identify_black_spots kmeans df k).2.getD i default).date =
        (df.get ⟨i, hi⟩).date ∧
      ((identify_black_spots kmeans df k).2.getD i default).severity =
        (df.get ⟨i, hi⟩).severity ∧
      ((identify_black_spots kmeans df k).2.getD i default).extra =
        (df.get ⟨i, hi⟩).extra ∧
      ∃ l, ((identify_black_spots kmeans df k).2.getD i default).clusterId =
        some l ∧ l < k) ∧
    (∀ r, r ∈ filter_city_limits (clean_coordinates df) latB lonB →
      ∃ r0, r0 ∈ df ∧ r.date = r0.date ∧ r.severity = r0.severity ∧
        r.extra = r0.extra ∧ r.clusterId = r0.clusterId) := by
  refine ⟨?_, fun i hi => ?_, fun r hr => ?_⟩
  · simp only [identify_black_spots]
    exact assign_labels_length df _ hlen
  · simp only [identify_black_spots]
    rw [assign_labels_getD df _ hlen i hi]
    refine ⟨rfl, rfl, rfl, rfl, rfl, ⟨_, rfl, ?_⟩⟩
    exact hlab _ (getD_mem_of_lt _ i 0 (by rw [hlen]; exact hi))
  · rw [filter_city_limits, List.mem_filter] at hr
    have hr2 := hr.1
    rw [clean_coordinates, dropna_coords, List.mem_filter] at hr2
    have hr3 := hr2.1
    rw [coerce_coords, List.mem_map] at hr3
    obtain ⟨r0, hr0, rfl⟩ := hr3
    rw [dropna_coords, List.mem_filter] at hr0
    exact ⟨r0, hr0.1, rfl, rfl, rfl, rfl⟩

/-- Witness for C10 on a concrete one-record set: the labeled row keeps its
passthrough blob and gets a cluster id below k. -/
theorem C10_frame_conditions_witness :
    ((identify_black_spots det_cap_a [out_of_delhi_record] 1).2.getD 0
      default).extra = out_of_delhi_record.extra ∧
    ∃ l, ((identify_black_spots det_cap_a [out_of_delhi_record] 1).2.getD 0
      default).clusterId = some l ∧ l < 1 :=
  have h := C10_frame_conditions det_cap_a [out_of_delhi_record] 1
    delhi_lat_bounds delhi_lon_bounds (by decide) (by decide)
  ⟨(h.2.1 0 (by decide)).2.2.2.2.1, (h.2.1 0 (by decide)).2.2.2.2.2⟩

end SafeRoute
